import Mathlib

/-!
The BLE/OIC session of `nmxact/nmble/ble_oic_sesn.go`.

A shallow embedding of `BleOicSesn`: the close-wait slot (`closeChan`), the
disconnect handler, the two blocking transmit operations and the MTU queries.

Conventions of the embedding.

* A Go `error` is `Option Err`; `none` is `nil`.
* The session record holds the state the session owns.  Collaborators whose code
  is outside `ble_oic_sesn.go` (the connection state machine `BleFsm`, the codecs,
  the token generator) are consulted through per-call answer records
  (`StopResult`, `WaitOutcome`, `TxEnv`, `OicEnv`).
* Every call on a collaborator and every send on `closeChan` is appended to
  `BleOicSesn.trace`, so that "was called", "was not called" and "was called
  first" are properties of a list.
* The buffered channel `make(chan error, 1)` is a record with an identity and a
  buffer; a send on a full buffer does not complete, which `onDisconnect` reports
  in the second component of its result.
-/

namespace Nmble

/-- Error values produced or passed on by the session. -/
inductive Err
  /-- `fmt.Errorf("Multiple listeners waiting for session to close")` -/
  | multipleListeners
  /-- `fmt.Errorf("Timeout while waiting for session to close")` -/
  | closeTimeout
  /-- `bf.closedError("Attempt to transmit over closed BLE session")` -/
  | sesnClosed
  /-- The registry refuses a key that is already registered. -/
  | duplicateKey
  /-- `fmt.Errorf("UNEXPECTED OIC ACK: %#v", rsp)` -/
  | unexpectedOicAck (code : Nat) (payload : List Nat)
  /-- Any error produced by a collaborator (state machine, codec). -/
  | other (tag : Nat)
  deriving DecidableEq, Repr

/-- Byte slices. -/
abbrev Bytes := List Nat

/-- Constants and enumeration values declared in packages outside
`ble_oic_sesn.go` (`bledefs`, `omp`, `nmp`, `ble_fsm.go`, `go-coap`); the
development is parametric in them. -/
structure Consts where
  NOTIFY_CMD_BASE_SZ : Int
  WRITE_CMD_BASE_SZ : Int
  OMP_MSG_OVERHEAD : Int
  NMP_HDR_SIZE : Int
  BLE_ATT_ATTR_MAX_LEN : Int
  FSM_DISCONNECT_TYPE_OPENED : Int
  Content : Nat
  deriving DecidableEq, Repr

/-- One concrete choice of the constants, used to evaluate the model. -/
def sampleConsts : Consts :=
  { NOTIFY_CMD_BASE_SZ := 3
    WRITE_CMD_BASE_SZ := 3
    OMP_MSG_OVERHEAD := 13
    NMP_HDR_SIZE := 8
    BLE_ATT_ATTR_MAX_LEN := 512
    FSM_DISCONNECT_TYPE_OPENED := 2
    Content := 69 }

/-- Peer device descriptor (`BleDev`). -/
structure BleDev where
  addrType : Nat
  addr : List Nat
  deriving DecidableEq, Repr

/-- The channel `make(chan error, 1)`: an identity and the buffered values. -/
structure Chan where
  id : Nat
  buf : List (Option Err)
  deriving DecidableEq, Repr

/-- Capacity of the close channel, the `1` of `make(chan error, 1)`. -/
def Chan.capacity : Nat := 1

/-- Modelled from the spec: the correlation registry `omp.Receiver` (its source
is not part of the files at hand), section 4.1.  Only the sets of registered keys
are kept: sequence numbers for NMP listeners and tokens for OIC listeners. -/
structure Receiver where
  nmpKeys : List Nat
  oicKeys : List Nat
  deriving DecidableEq, Repr

/-- Modelled from the spec: `Register(key)` for a sequence number; fails on a key
that already has an active slot, otherwise adds it. -/
def Receiver.AddNmpListener (r : Receiver) (seq : Nat) : Except Err Receiver :=
  if seq ∈ r.nmpKeys then Except.error Err.duplicateKey
  else Except.ok { r with nmpKeys := seq :: r.nmpKeys }

/-- Modelled from the spec: `Unregister(key)` for a sequence number; removes the
slot if present and does nothing otherwise. -/
def Receiver.RemoveNmpListener (r : Receiver) (seq : Nat) : Receiver :=
  { r with nmpKeys := r.nmpKeys.filter (fun k => k ≠ seq) }

/-- Modelled from the spec: `Register(key)` for a token. -/
def Receiver.AddOicListener (r : Receiver) (token : Nat) : Except Err Receiver :=
  if token ∈ r.oicKeys then Except.error Err.duplicateKey
  else Except.ok { r with oicKeys := token :: r.oicKeys }

/-- Modelled from the spec: `Unregister(key)` for a token. -/
def Receiver.RemoveOicListener (r : Receiver) (token : Nat) : Receiver :=
  { r with oicKeys := r.oicKeys.filter (fun k => k ≠ token) }

/-- Modelled from the spec: `FailAll(error)`; every registered slot receives the
error and the table is cleared. -/
def Receiver.ErrorAll (_r : Receiver) (_err : Option Err) : Receiver :=
  { nmpKeys := [], oicKeys := [] }

/-- Observable actions of the session on its collaborators. -/
inductive Event
  /-- `bos.rxer.ErrorAll(err)` -/
  | ErrorAll (err : Option Err)
  /-- `bos.closeChan <- err` on the channel with the given identity -/
  | closeChanSend (chan : Nat) (err : Option Err)
  /-- `bos.onCloseCb(bos, err)`; the first field is the session -/
  | onCloseCb (sesn : Nat) (err : Option Err)
  /-- `bos.bf.Stop()` -/
  | Stop
  /-- `omp.EncodeOmpTcp(m)` with the message's sequence number -/
  | EncodeOmpTcp (seq : Nat)
  /-- `bos.bf.TxNmp(b, nl, timeout)` -/
  | TxNmp (b : Bytes) (seq : Nat) (timeout : Int)
  /-- `oic.EncodeGet(uri, token)` -/
  | EncodeGet (uri : List Nat) (token : Nat)
  /-- `bos.bf.TxOic(req, ol, timeout)` -/
  | TxOic (req : Bytes) (token : Nat) (timeout : Int)
  deriving DecidableEq, Repr

/-- The part of `BleFsm` that the session reads as a field. -/
structure BleFsm where
  attMtu : Int
  deriving DecidableEq, Repr

/-- The session `BleOicSesn`.  `id` stands for the pointer `bos`, `onCloseCb`
records whether a callback is configured (non-nil), `nextChan` is the identity
the next `make` will hand out. -/
structure BleOicSesn where
  id : Nat
  bf : BleFsm
  rxer : Receiver
  closeTimeout : Int
  onCloseCb : Bool
  closeChan : Option Chan
  nextChan : Nat
  trace : List Event
  deriving DecidableEq, Repr

/-- Appends one action to the trace. -/
def BleOicSesn.emit (bos : BleOicSesn) (e : Event) : BleOicSesn :=
  { bos with trace := bos.trace ++ [e] }

/-- `setCloseChan`: fails when a channel is already assigned, otherwise assigns
a fresh one. -/
def setCloseChan (bos : BleOicSesn) : BleOicSesn × Option Err :=
  if bos.closeChan ≠ none then
    (bos, some Err.multipleListeners)
  else
    ({ bos with closeChan := some { id := bos.nextChan, buf := [] }
                nextChan := bos.nextChan + 1 }, none)

/-- `clearCloseChan`. -/
def clearCloseChan (bos : BleOicSesn) : BleOicSesn :=
  { bos with closeChan := none }

/-- The last statement of `onDisconnect`: the owner's callback. -/
def notifyOwner (c : Consts) (bos : BleOicSesn) (dt : Int) (err : Option Err) : BleOicSesn :=
  if dt = c.FSM_DISCONNECT_TYPE_OPENED ∧ bos.onCloseCb = true then
    bos.emit (Event.onCloseCb bos.id err)
  else
    bos

/-- `onDisconnect`.  The second component is `true` when the call returns and
`false` when it is stopped at `bos.closeChan <- err` because the buffer is
full. -/
def onDisconnect (c : Consts) (bos : BleOicSesn) (dt : Int) (_peer : BleDev)
    (err : Option Err) : BleOicSesn × Bool :=
  let s1 := { bos with rxer := bos.rxer.ErrorAll err }.emit (Event.ErrorAll err)
  match s1.closeChan with
  | some ch =>
    if ch.buf.length < Chan.capacity then
      let s2 := { s1 with closeChan := some { ch with buf := ch.buf ++ [err] } }.emit
        (Event.closeChanSend ch.id err)
      (notifyOwner c s2 dt err, true)
    else
      (s1, false)
  | none => (notifyOwner c s1 dt err, true)

/-- One invocation of the disconnect callback by the state machine. -/
structure Disconnect where
  dt : Int
  peer : BleDev
  err : Option Err
  deriving DecidableEq, Repr

/-- What happens while a caller is in the `select` of `listenForClose`, up to the
moment the `select` resolves.  `disc` is the disconnect callback the state
machine has run by then, if any.  `timerFired` says that the timer of
`time.After(timeout)` has fired by then.  `pickTimer` is the choice of the Go
runtime when both cases of the `select` are ready: `true` for the timer case,
`false` for the receive. -/
structure WaitOutcome where
  disc : Option Disconnect
  timerFired : Bool
  pickTimer : Bool
  deriving DecidableEq, Repr

/-- The disconnect callback runs and the timer has not fired. -/
def WaitOutcome.disconnect (dt : Int) (peer : BleDev) (err : Option Err) : WaitOutcome :=
  { disc := some { dt := dt, peer := peer, err := err }, timerFired := false, pickTimer := false }

/-- The timer fires and no disconnect has been reported. -/
def WaitOutcome.timeout : WaitOutcome :=
  { disc := none, timerFired := true, pickTimer := true }

/-- The state machine's activity during the wait, applied to the session. -/
def duringWait (c : Consts) (bos : BleOicSesn) (w : WaitOutcome) : BleOicSesn :=
  match w.disc with
  | some d => (onDisconnect c bos d.dt d.peer d.err).1
  | none => bos

/-- The timer case of the `select` is ready: the timer has fired, which it does
at once for a timeout that is zero or negative. -/
def timerReady (timeout : Int) (w : WaitOutcome) : Bool :=
  w.timerFired || decide (timeout ≤ 0)

/-- `listenForClose`: the `select` over `<-bos.closeChan` and
`<-time.After(timeout)`.  With a value buffered in the channel the receive is
ready; it is taken (the value is dropped, the result is `nil`) unless the timer
case is ready too and the runtime picks it.  With nothing to receive the `select`
waits for the timer and the result is the timeout error. -/
def listenForClose (c : Consts) (bos : BleOicSesn) (timeout : Int) (w : WaitOutcome) :
    BleOicSesn × Option Err :=
  let s1 := duringWait c bos w
  match s1.closeChan with
  | some ch =>
    match ch.buf with
    | _ :: rest =>
      if timerReady timeout w && w.pickTimer then
        (s1, some Err.closeTimeout)
      else
        ({ s1 with closeChan := some { ch with buf := rest } }, none)
    | [] => (s1, some Err.closeTimeout)
  | none => (s1, some Err.closeTimeout)

/-- `blockUntilClosed`; `isClosed` is the answer of `bos.bf.IsClosed()`. -/
def blockUntilClosed (c : Consts) (bos : BleOicSesn) (timeout : Int) (isClosed : Bool)
    (w : WaitOutcome) : BleOicSesn × Option Err :=
  match setCloseChan bos with
  | (s0, some err) => (s0, some err)
  | (s1, none) =>
    if isClosed then
      (clearCloseChan s1, none)
    else
      let r := listenForClose c s1 timeout w
      (clearCloseChan r.1, r.2)

/-- The answer of `bos.bf.Stop()`. -/
structure StopResult where
  done : Bool
  err : Option Err
  deriving DecidableEq, Repr

/-- `Close`. -/
def Close (c : Consts) (bos : BleOicSesn) (stop : StopResult) (w : WaitOutcome) :
    BleOicSesn × Option Err :=
  match setCloseChan bos with
  | (s0, some err) => (s0, some err)
  | (s1, none) =>
    let s2 := s1.emit Event.Stop
    match stop.err with
    | some err => (clearCloseChan s2, some err)
    | none =>
      if stop.done then
        (clearCloseChan s2, none)
      else
        let r := listenForClose c s2 s2.closeTimeout w
        (clearCloseChan r.1, r.2)

/-- An NMP request; only the header's sequence number matters to the session. -/
structure NmpMsg where
  seq : Nat
  body : Bytes
  deriving DecidableEq, Repr

/-- An NMP response as handed back by the state machine. -/
structure NmpRsp where
  data : Bytes
  deriving DecidableEq, Repr

/-- The type `sesn.TxOptions`. -/
structure TxOptions where
  Timeout : Int
  Tries : Int
  deriving DecidableEq, Repr

/-- Disconnect callbacks that the state machine runs while a caller is blocked
in a send; each acts on the session through `onDisconnect`. -/
def duringTx (c : Consts) (bos : BleOicSesn) (ds : List Disconnect) : BleOicSesn :=
  ds.foldl (fun s d => (onDisconnect c s d.dt d.peer d.err).1) bos

/-- Answers of the collaborators during one `TxNmpOnce`: `bos.IsOpen()`,
`omp.EncodeOmpTcp(m)`, the disconnects reported while `TxNmp` blocks, and the
pair returned by `bos.bf.TxNmp`. -/
structure TxEnv where
  isOpen : Bool
  encode : Except Err Bytes
  disc : List Disconnect
  tx : Option NmpRsp × Option Err

/-- `TxNmpOnce`.  The deferred `RemoveNmpListener` runs on every return that
follows a successful registration. -/
def TxNmpOnce (c : Consts) (bos : BleOicSesn) (m : NmpMsg) (opt : TxOptions) (env : TxEnv) :
    BleOicSesn × (Option NmpRsp × Option Err) :=
  if !env.isOpen then
    (bos, (none, some Err.sesnClosed))
  else
    match bos.rxer.AddNmpListener m.seq with
    | Except.error err => (bos, (none, some err))
    | Except.ok r =>
      let s1 := { bos with rxer := r }
      let s2 := s1.emit (Event.EncodeOmpTcp m.seq)
      match env.encode with
      | Except.error err =>
        ({ s2 with rxer := s2.rxer.RemoveNmpListener m.seq }, (none, some err))
      | Except.ok b =>
        let s3 := duringTx c (s2.emit (Event.TxNmp b m.seq opt.Timeout)) env.disc
        ({ s3 with rxer := s3.rxer.RemoveNmpListener m.seq }, env.tx)

/-- Go's `int` on a 64-bit host: the value of an arithmetic result after
wrap-around. -/
def wrapInt (x : Int) : Int :=
  (x + 2 ^ 63) % 2 ^ 64 - 2 ^ 63

/-- Modelled from the spec: `util.IntMin` (package `newt/util`, outside the files
at hand), the smaller of two ints. -/
def IntMin (a b : Int) : Int :=
  if a < b then a else b

/-- `MtuIn`. -/
def MtuIn (c : Consts) (bos : BleOicSesn) : Int :=
  wrapInt (wrapInt (wrapInt (bos.bf.attMtu - c.NOTIFY_CMD_BASE_SZ) - c.OMP_MSG_OVERHEAD)
    - c.NMP_HDR_SIZE)

/-- `MtuOut`. -/
def MtuOut (c : Consts) (bos : BleOicSesn) : Int :=
  let mtu := wrapInt (wrapInt (wrapInt (bos.bf.attMtu - c.WRITE_CMD_BASE_SZ)
    - c.OMP_MSG_OVERHEAD) - c.NMP_HDR_SIZE)
  IntMin mtu c.BLE_ATT_ATTR_MAX_LEN

/-- A CoAP response: status code and payload. -/
structure CoapMsg where
  Code : Nat
  Payload : Bytes
  deriving DecidableEq, Repr

/-- Answers of the collaborators during one `GetResourceOnce`:
`nmxutil.NextOicToken()`, `oic.EncodeGet(uri, token)`, the disconnects reported
while `TxOic` blocks, and the result of `bos.bf.TxOic`. -/
structure OicEnv where
  token : Nat
  encode : Except Err Bytes
  disc : List Disconnect
  tx : Except Err CoapMsg

/-- `GetResourceOnce`. -/
def GetResourceOnce (c : Consts) (bos : BleOicSesn) (uri : List Nat) (opt : TxOptions)
    (env : OicEnv) : BleOicSesn × (Option Bytes × Option Err) :=
  match bos.rxer.AddOicListener env.token with
  | Except.error err => (bos, (none, some err))
  | Except.ok r =>
    let s1 := { bos with rxer := r }
    let s2 := s1.emit (Event.EncodeGet uri env.token)
    match env.encode with
    | Except.error err =>
      ({ s2 with rxer := s2.rxer.RemoveOicListener env.token }, (none, some err))
    | Except.ok req =>
      let s3 := duringTx c (s2.emit (Event.TxOic req env.token opt.Timeout)) env.disc
      let s4 := { s3 with rxer := s3.rxer.RemoveOicListener env.token }
      match env.tx with
      | Except.error err => (s4, (none, some err))
      | Except.ok rsp =>
        if rsp.Code ≠ c.Content then
          (s4, (none, some (Err.unexpectedOicAck rsp.Code rsp.Payload)))
        else
          (s4, (some rsp.Payload, none))

/-- A session with nothing registered, used to evaluate the model; the close
timeout is five seconds, in nanoseconds as in `time.Duration`. -/
def sampleSesn : BleOicSesn :=
  { id := 1
    bf := { attMtu := 240 }
    rxer := { nmpKeys := [], oicKeys := [] }
    closeTimeout := 5000000000
    onCloseCb := true
    closeChan := none
    nextChan := 0
    trace := [] }

/-- A peer address, used to evaluate the model. -/
def samplePeer : BleDev :=
  { addrType := 0, addr := [1, 2, 3, 4, 5, 6] }

/-- The send `bos.closeChan <- err` can complete at once: no channel is assigned
(nothing is sent) or the assigned channel's buffer is not full. -/
def closeChanHasRoom (bos : BleOicSesn) : Bool :=
  match bos.closeChan with
  | some ch => decide (ch.buf.length < Chan.capacity)
  | none => true

/-- The actions appended to the trace between two states of one session. -/
def newEvents (before after : BleOicSesn) : List Event :=
  after.trace.drop before.trace.length

/-- Recognises an invocation of the owner's callback. -/
def Event.isOnCloseCb : Event → Bool
  | Event.onCloseCb _ _ => true
  | _ => false

/-- Recognises a call of `ErrorAll`. -/
def Event.isErrorAll : Event → Bool
  | Event.ErrorAll _ => true
  | _ => false

/-- Recognises a send on the close channel. -/
def Event.isCloseChanSend : Event → Bool
  | Event.closeChanSend _ _ => true
  | _ => false

/-- The value is representable as a 64-bit `int`. -/
def fitsInt (x : Int) : Prop :=
  -(2 ^ 63) ≤ x ∧ x < 2 ^ 63

/-- None of the three successive subtractions leaves the range of `int`. -/
def noWrap (a b c d : Int) : Prop :=
  fitsInt (a - b) ∧ fitsInt (a - b - c) ∧ fitsInt (a - b - c - d)

/-- A session whose close-wait slot is registered and empty. -/
def waitingSesn : BleOicSesn :=
  { sampleSesn with closeChan := some { id := 0, buf := [] }, nextChan := 1 }

/-- The session `waitingSesn` after one disconnect has been reported and its
result not yet received: the slot's buffer is full. -/
def fullSesn : BleOicSesn :=
  (onDisconnect sampleConsts waitingSesn 3 samplePeer none).1

/-- The session as `Close` leaves it after a successful `setCloseChan` and the
call of `Stop`: a fresh empty slot is registered. -/
def registeredSesn (bos : BleOicSesn) : BleOicSesn :=
  { bos with closeChan := some { id := bos.nextChan, buf := [] }
             nextChan := bos.nextChan + 1 }.emit Event.Stop

/-- A session on which sequence number 7 has a listener registered. -/
def busySesn : BleOicSesn :=
  { sampleSesn with rxer := { nmpKeys := [7], oicKeys := [] } }

/-! ## Basic facts -/

theorem newEvents_append (a b : BleOicSesn) (evs : List Event)
    (h : b.trace = a.trace ++ evs) : newEvents a b = evs := by
  simp [newEvents, h]

theorem setCloseChan_of_some (bos : BleOicSesn) (h : bos.closeChan ≠ none) :
    setCloseChan bos = (bos, some Err.multipleListeners) := by
  simp [setCloseChan, h]

theorem setCloseChan_of_none (bos : BleOicSesn) (h : bos.closeChan = none) :
    setCloseChan bos =
      ({ bos with closeChan := some { id := bos.nextChan, buf := [] }
                  nextChan := bos.nextChan + 1 }, none) := by
  simp [setCloseChan, h]

theorem wrapInt_of_fits (x : Int) (h : fitsInt x) : wrapInt x = x := by
  obtain ⟨h1, h2⟩ := h
  unfold wrapInt
  rw [Int.emod_eq_of_lt (by omega) (by omega)]
  omega

theorem IntMin_le_right (a b : Int) : IntMin a b ≤ b := by
  unfold IntMin
  split <;> omega

theorem IntMin_eq_min (a b : Int) : IntMin a b = min a b := by
  unfold IntMin
  split <;> omega

theorem mem_RemoveNmpListener (r : Receiver) (seq : Nat) :
    seq ∉ (r.RemoveNmpListener seq).nmpKeys := by
  simp [Receiver.RemoveNmpListener]

theorem AddNmpListener_of_not_mem (r : Receiver) (seq : Nat) (h : seq ∉ r.nmpKeys) :
    r.AddNmpListener seq = Except.ok { r with nmpKeys := seq :: r.nmpKeys } := by
  simp [Receiver.AddNmpListener, h]

theorem AddNmpListener_of_mem (r : Receiver) (seq : Nat) (h : seq ∈ r.nmpKeys) :
    r.AddNmpListener seq = Except.error Err.duplicateKey := by
  simp [Receiver.AddNmpListener, h]

/-! ## Close-wait slot -/

/-- C1: in every state with a close-wait slot registered, `Close` returns the
multiple-waiters error and leaves the session exactly as it was, so `Stop` is
not called and `closeChan` is the same slot; `setCloseChan` fails exactly when a
slot is registered, and then with that error. -/
theorem C1_close_rejects_second_waiter (c : Consts) (bos : BleOicSesn) (stop : StopResult)
    (w : WaitOutcome) (h : bos.closeChan ≠ none) :
    Close c bos stop w = (bos, some Err.multipleListeners)
    ∧ (Close c bos stop w).1.closeChan = bos.closeChan
    ∧ Event.Stop ∉ newEvents bos (Close c bos stop w).1
    ∧ (∀ s : BleOicSesn, (setCloseChan s).2 ≠ none ↔ s.closeChan ≠ none)
    ∧ (∀ s : BleOicSesn, (setCloseChan s).2 ≠ none →
        setCloseChan s = (s, some Err.multipleListeners)) := by
  have hc : Close c bos stop w = (bos, some Err.multipleListeners) := by
    simp [Close, setCloseChan_of_some bos h]
  refine ⟨hc, by rw [hc], by simp [hc, newEvents], ?_, ?_⟩
  · intro s
    by_cases hs : s.closeChan = none <;> simp [setCloseChan, hs]
  · intro s
    by_cases hs : s.closeChan = none <;> simp [setCloseChan, hs]

/-- Witness for C1: a second `Close` on a session whose slot is registered. -/
theorem C1_close_rejects_second_waiter_witness :
    waitingSesn.closeChan ≠ none
    ∧ Close sampleConsts waitingSesn ⟨false, none⟩ WaitOutcome.timeout
        = (waitingSesn, some Err.multipleListeners)
    ∧ (setCloseChan waitingSesn).2 ≠ none
    ∧ setCloseChan waitingSesn = (waitingSesn, some Err.multipleListeners) :=
  ⟨by decide,
   (C1_close_rejects_second_waiter sampleConsts waitingSesn ⟨false, none⟩
      WaitOutcome.timeout (by decide)).1,
   by decide,
   (C1_close_rejects_second_waiter sampleConsts waitingSesn ⟨false, none⟩
      WaitOutcome.timeout (by decide)).2.2.2.2 waitingSesn (by decide)⟩

/-! ## Disconnect handling -/

theorem notifyOwner_trace (c : Consts) (bos : BleOicSesn) (dt : Int) (err : Option Err) :
    (notifyOwner c bos dt err).trace = bos.trace ++
      (if dt = c.FSM_DISCONNECT_TYPE_OPENED ∧ bos.onCloseCb = true
       then [Event.onCloseCb bos.id err] else []) := by
  unfold notifyOwner
  split <;> simp [BleOicSesn.emit]

theorem notifyOwner_closeChan (c : Consts) (bos : BleOicSesn) (dt : Int) (err : Option Err) :
    (notifyOwner c bos dt err).closeChan = bos.closeChan := by
  unfold notifyOwner
  split <;> simp [BleOicSesn.emit]

theorem notifyOwner_rxer (c : Consts) (bos : BleOicSesn) (dt : Int) (err : Option Err) :
    (notifyOwner c bos dt err).rxer = bos.rxer := by
  unfold notifyOwner
  split <;> simp [BleOicSesn.emit]

/-- The trace after `onDisconnect`, in each of its three cases. -/
theorem onDisconnect_trace (c : Consts) (bos : BleOicSesn) (dt : Int) (peer : BleDev)
    (err : Option Err) :
    (onDisconnect c bos dt peer err).1.trace = bos.trace ++ Event.ErrorAll err ::
      (match bos.closeChan with
       | some ch =>
         if ch.buf.length < Chan.capacity then
           Event.closeChanSend ch.id err ::
             (if dt = c.FSM_DISCONNECT_TYPE_OPENED ∧ bos.onCloseCb = true
              then [Event.onCloseCb bos.id err] else [])
         else []
       | none =>
         if dt = c.FSM_DISCONNECT_TYPE_OPENED ∧ bos.onCloseCb = true
         then [Event.onCloseCb bos.id err] else []) := by
  unfold onDisconnect
  cases hch : bos.closeChan with
  | none => simp [BleOicSesn.emit, hch, notifyOwner_trace]
  | some ch =>
    by_cases hlen : ch.buf.length < Chan.capacity
    · simp [BleOicSesn.emit, hch, hlen, notifyOwner_trace]
    · simp [BleOicSesn.emit, hch, hlen]

/-- The call returns exactly when the send can complete. -/
theorem onDisconnect_returns (c : Consts) (bos : BleOicSesn) (dt : Int) (peer : BleDev)
    (err : Option Err) :
    (onDisconnect c bos dt peer err).2 = closeChanHasRoom bos := by
  unfold onDisconnect closeChanHasRoom
  cases hch : bos.closeChan with
  | none => simp [BleOicSesn.emit, hch]
  | some ch =>
    by_cases hlen : ch.buf.length < Chan.capacity <;> simp [BleOicSesn.emit, hch, hlen]

/-- The registry after `onDisconnect` is the one `ErrorAll` leaves. -/
theorem onDisconnect_rxer (c : Consts) (bos : BleOicSesn) (dt : Int) (peer : BleDev)
    (err : Option Err) :
    (onDisconnect c bos dt peer err).1.rxer = bos.rxer.ErrorAll err := by
  unfold onDisconnect
  cases hch : bos.closeChan with
  | none => simp [BleOicSesn.emit, hch, notifyOwner_rxer]
  | some ch =>
    by_cases hlen : ch.buf.length < Chan.capacity
    · simp [BleOicSesn.emit, hch, hlen, notifyOwner_rxer]
    · simp [BleOicSesn.emit, hch, hlen]

/-- The close channel after `onDisconnect`. -/
theorem onDisconnect_closeChan (c : Consts) (bos : BleOicSesn) (dt : Int) (peer : BleDev)
    (err : Option Err) :
    (onDisconnect c bos dt peer err).1.closeChan =
      (match bos.closeChan with
       | some ch =>
         if ch.buf.length < Chan.capacity then some { ch with buf := ch.buf ++ [err] }
         else some ch
       | none => none) := by
  unfold onDisconnect
  cases hch : bos.closeChan with
  | none => simp [BleOicSesn.emit, hch, notifyOwner_closeChan]
  | some ch =>
    by_cases hlen : ch.buf.length < Chan.capacity
    · simp [BleOicSesn.emit, hch, hlen, notifyOwner_closeChan]
    · simp [BleOicSesn.emit, hch, hlen]

/-- The invocations of the owner's callback made by `onDisconnect`, in every
state. -/
theorem onDisconnect_callbacks (c : Consts) (bos : BleOicSesn) (dt : Int) (peer : BleDev)
    (err : Option Err) :
    (newEvents bos (onDisconnect c bos dt peer err).1).filter Event.isOnCloseCb =
      (if closeChanHasRoom bos = true ∧ dt = c.FSM_DISCONNECT_TYPE_OPENED
          ∧ bos.onCloseCb = true
       then [Event.onCloseCb bos.id err] else []) := by
  rw [newEvents_append bos _ _ (onDisconnect_trace c bos dt peer err)]
  cases hch : bos.closeChan with
  | none =>
    by_cases hcb : dt = c.FSM_DISCONNECT_TYPE_OPENED ∧ bos.onCloseCb = true <;>
      simp [hcb, hch, closeChanHasRoom, Event.isOnCloseCb]
  | some ch =>
    by_cases hlen : ch.buf.length < Chan.capacity <;>
    by_cases hcb : dt = c.FSM_DISCONNECT_TYPE_OPENED ∧ bos.onCloseCb = true <;>
      simp [hcb, hch, hlen, closeChanHasRoom, Event.isOnCloseCb]

/-- C2 (as stated, refuted): the slot of `fullSesn` is registered and already
holds a result, the disconnect is of the opened type (2 with the sample
constants) and a callback is configured, yet `onDisconnect` is held at the send
on the close channel and has invoked no callback. -/
theorem C2_full_slot_no_callback :
    fullSesn.closeChan = some { id := 0, buf := [none] }
    ∧ fullSesn.onCloseCb = true
    ∧ (2 : Int) = sampleConsts.FSM_DISCONNECT_TYPE_OPENED
    ∧ (onDisconnect sampleConsts fullSesn 2 samplePeer (some (Err.other 7))).2 = false
    ∧ (newEvents fullSesn
        (onDisconnect sampleConsts fullSesn 2 samplePeer (some (Err.other 7))).1).filter
          Event.isOnCloseCb = [] := by
  decide

/-- C2 (amended): in every state in which the send on the close channel can
complete (no slot registered, or the slot's buffer not full), `onDisconnect`
returns and the invocations of the owner's callback it makes are exactly one,
with the session and `err`, when `dt = FSM_DISCONNECT_TYPE_OPENED` and a callback
is configured, and none otherwise.  In every state, a disconnect of another type,
or one with no callback configured, invokes no callback.  In a state whose slot
is registered with a full buffer the call is held at the send and has invoked no
callback. -/
theorem C2_owner_callback_when_send_completes (c : Consts) (bos : BleOicSesn) (dt : Int)
    (peer : BleDev) (err : Option Err) :
    (closeChanHasRoom bos = true →
        (onDisconnect c bos dt peer err).2 = true
        ∧ (newEvents bos (onDisconnect c bos dt peer err).1).filter Event.isOnCloseCb =
            (if dt = c.FSM_DISCONNECT_TYPE_OPENED ∧ bos.onCloseCb = true
             then [Event.onCloseCb bos.id err] else [])
        ∧ (((newEvents bos (onDisconnect c bos dt peer err).1).filter
              Event.isOnCloseCb).length = 1
            ↔ (dt = c.FSM_DISCONNECT_TYPE_OPENED ∧ bos.onCloseCb = true)))
    ∧ (dt ≠ c.FSM_DISCONNECT_TYPE_OPENED ∨ bos.onCloseCb = false →
        ∀ e ∈ newEvents bos (onDisconnect c bos dt peer err).1, e.isOnCloseCb = false)
    ∧ (closeChanHasRoom bos = false →
        (onDisconnect c bos dt peer err).2 = false
        ∧ ∀ e ∈ newEvents bos (onDisconnect c bos dt peer err).1,
            e.isOnCloseCb = false) := by
  have hret := onDisconnect_returns c bos dt peer err
  have hcb := onDisconnect_callbacks c bos dt peer err
  have hnone : (newEvents bos (onDisconnect c bos dt peer err).1).filter Event.isOnCloseCb = []
      → ∀ e ∈ newEvents bos (onDisconnect c bos dt peer err).1, e.isOnCloseCb = false := by
    intro h e he
    by_contra hne
    have hmem : e ∈ (newEvents bos (onDisconnect c bos dt peer err).1).filter
        Event.isOnCloseCb := List.mem_filter.mpr ⟨he, by simpa using hne⟩
    rw [h] at hmem
    exact absurd hmem (List.not_mem_nil e)
  refine ⟨?_, ?_, ?_⟩
  · intro hroom
    refine ⟨by rw [hret, hroom], ?_, ?_⟩
    · rw [hcb]
      simp [hroom]
    · rw [hcb]
      by_cases h : dt = c.FSM_DISCONNECT_TYPE_OPENED ∧ bos.onCloseCb = true <;>
        simp [hroom, h]
  · intro h
    apply hnone
    rw [hcb]
    rcases h with h | h <;> simp [h]
  · intro hfull
    refine ⟨by rw [hret, hfull], ?_⟩
    apply hnone
    rw [hcb]
    simp [hfull]

/-- Witness for C2 (amended): with room in the slot an opened-session disconnect
(type 2 with the sample constants) invokes the callback once and a disconnect of
another type (3) does not; with the slot full the call is held. -/
theorem C2_owner_callback_when_send_completes_witness :
    closeChanHasRoom waitingSesn = true
    ∧ (newEvents waitingSesn
        (onDisconnect sampleConsts waitingSesn 2 samplePeer (some (Err.other 7))).1).filter
          Event.isOnCloseCb = [Event.onCloseCb 1 (some (Err.other 7))]
    ∧ (3 : Int) ≠ sampleConsts.FSM_DISCONNECT_TYPE_OPENED
    ∧ (∀ e ∈ newEvents waitingSesn
          (onDisconnect sampleConsts waitingSesn 3 samplePeer (some (Err.other 7))).1,
        e.isOnCloseCb = false)
    ∧ closeChanHasRoom fullSesn = false
    ∧ (onDisconnect sampleConsts fullSesn 2 samplePeer (some (Err.other 7))).2 = false :=
  ⟨by decide,
   ((C2_owner_callback_when_send_completes sampleConsts waitingSesn 2 samplePeer
      (some (Err.other 7))).1 (by decide)).2.1,
   by decide,
   (C2_owner_callback_when_send_completes sampleConsts waitingSesn 3 samplePeer
      (some (Err.other 7))).2.1 (Or.inl (by decide)),
   by decide,
   ((C2_owner_callback_when_send_completes sampleConsts fullSesn 2 samplePeer
      (some (Err.other 7))).2.2 (by decide)).1⟩

/-- C8: in every state and for every disconnect type, peer and error,
`onDisconnect` calls `ErrorAll(err)` as its first action, with that error, and
calls it only once; every send on the close channel and every owner callback
comes after it, and the registry is left as `ErrorAll(err)` leaves it.  This
holds also for a call that is then held up at the close channel. -/
theorem C8_error_all_first_and_once (c : Consts) (bos : BleOicSesn) (dt : Int)
    (peer : BleDev) (err : Option Err) :
    (newEvents bos (onDisconnect c bos dt peer err).1).head? = some (Event.ErrorAll err)
    ∧ (newEvents bos (onDisconnect c bos dt peer err).1).filter Event.isErrorAll
        = [Event.ErrorAll err]
    ∧ (∀ e ∈ (newEvents bos (onDisconnect c bos dt peer err).1).tail,
        e.isCloseChanSend = true ∨ e.isOnCloseCb = true)
    ∧ (onDisconnect c bos dt peer err).1.rxer = bos.rxer.ErrorAll err := by
  have hev := newEvents_append bos _ _ (onDisconnect_trace c bos dt peer err)
  rw [hev]
  refine ⟨by simp, ?_, ?_, onDisconnect_rxer c bos dt peer err⟩
  · cases hch : bos.closeChan with
    | none =>
      by_cases hcb : dt = c.FSM_DISCONNECT_TYPE_OPENED ∧ bos.onCloseCb = true <;>
        simp [hcb, Event.isErrorAll]
    | some ch =>
      by_cases hlen : ch.buf.length < Chan.capacity <;>
      by_cases hcb : dt = c.FSM_DISCONNECT_TYPE_OPENED ∧ bos.onCloseCb = true <;>
        simp [hcb, hlen, Event.isErrorAll]
  · intro e he
    cases hch : bos.closeChan with
    | none =>
      by_cases hcb : dt = c.FSM_DISCONNECT_TYPE_OPENED ∧ bos.onCloseCb = true
      · simp [hch, hcb] at he
        subst he
        right; rfl
      · simp [hch, hcb] at he
    | some ch =>
      by_cases hlen : ch.buf.length < Chan.capacity
      · by_cases hcb : dt = c.FSM_DISCONNECT_TYPE_OPENED ∧ bos.onCloseCb = true
        · simp [hch, hcb, hlen] at he
          rcases he with he | he
          · subst he; left; rfl
          · subst he; right; rfl
        · simp [hch, hcb, hlen] at he
          subst he; left; rfl
      · simp [hch, hlen] at he

/-- C7 (as stated, refuted): with a close-wait slot registered, `onDisconnect`
returns and `closeChan` is still the slot, now holding the error; it is not
nil. -/
theorem C7_marker_not_cleared :
    waitingSesn.closeChan = some { id := 0, buf := [] }
    ∧ (onDisconnect sampleConsts waitingSesn 3 samplePeer (some (Err.other 7))).2 = true
    ∧ (onDisconnect sampleConsts waitingSesn 3 samplePeer (some (Err.other 7))).1.closeChan
        = some { id := 0, buf := [some (Err.other 7)] }
    ∧ (onDisconnect sampleConsts waitingSesn 3 samplePeer (some (Err.other 7))).1.closeChan
        ≠ none := by
  decide

/-- C7 (amended): with a close-wait slot registered whose buffer has room,
`onDisconnect` returns, has sent `err` on that slot, and `closeChan` is that
same slot holding `err`; with a slot registered, whatever its buffer, the
registration is never cleared by `onDisconnect`; with no slot registered it
returns, sends nothing and leaves `closeChan` nil. -/
theorem C7_disconnect_delivers_keeps_marker (c : Consts) (bos : BleOicSesn) (dt : Int)
    (peer : BleDev) (err : Option Err) :
    (∀ ch, bos.closeChan = some ch → ch.buf.length < Chan.capacity →
        (onDisconnect c bos dt peer err).2 = true
        ∧ (onDisconnect c bos dt peer err).1.closeChan = some { id := ch.id, buf := [err] }
        ∧ (newEvents bos (onDisconnect c bos dt peer err).1).filter Event.isCloseChanSend
            = [Event.closeChanSend ch.id err])
    ∧ (∀ ch, bos.closeChan = some ch →
        ∃ ch2, (onDisconnect c bos dt peer err).1.closeChan = some ch2 ∧ ch2.id = ch.id)
    ∧ (bos.closeChan = none →
        (onDisconnect c bos dt peer err).2 = true
        ∧ (onDisconnect c bos dt peer err).1.closeChan = none
        ∧ (newEvents bos (onDisconnect c bos dt peer err).1).filter Event.isCloseChanSend
            = []) := by
  have hev := newEvents_append bos _ _ (onDisconnect_trace c bos dt peer err)
  have hret := onDisconnect_returns c bos dt peer err
  have hcc := onDisconnect_closeChan c bos dt peer err
  rw [hev, hret, hcc]
  refine ⟨?_, ?_, ?_⟩
  · intro ch hch hlen
    have hnil : ch.buf = [] := by
      have : ch.buf.length = 0 := by
        simp only [Chan.capacity] at hlen
        omega
      exact List.length_eq_zero.mp this
    by_cases hcb : dt = c.FSM_DISCONNECT_TYPE_OPENED ∧ bos.onCloseCb = true <;>
      simp [closeChanHasRoom, hch, hnil, hcb, Event.isCloseChanSend, Chan.capacity]
  · intro ch hch
    by_cases hlen : ch.buf.length < Chan.capacity <;> simp [hch, hlen]
  · intro hch
    by_cases hcb : dt = c.FSM_DISCONNECT_TYPE_OPENED ∧ bos.onCloseCb = true <;>
      simp [closeChanHasRoom, hch, hcb, Event.isCloseChanSend]

/-- Witness for C7 (amended): a clean disconnect with a slot registered, and one
with no slot registered. -/
theorem C7_disconnect_delivers_keeps_marker_witness :
    waitingSesn.closeChan = some { id := 0, buf := [] }
    ∧ (onDisconnect sampleConsts waitingSesn 3 samplePeer none).1.closeChan
        = some { id := 0, buf := [none] }
    ∧ sampleSesn.closeChan = none
    ∧ (onDisconnect sampleConsts sampleSesn 3 samplePeer none).1.closeChan = none :=
  ⟨by decide,
   ((C7_disconnect_delivers_keeps_marker sampleConsts waitingSesn 3 samplePeer none).1
      { id := 0, buf := [] } (by decide) (by decide)).2.1,
   by decide,
   ((C7_disconnect_delivers_keeps_marker sampleConsts sampleSesn 3 samplePeer none).2.2
      (by decide)).2.1⟩

/-! ## Close -/

theorem duringWait_trace (c : Consts) (bos : BleOicSesn) (w : WaitOutcome) :
    ∃ rest, (duringWait c bos w).trace = bos.trace ++ rest := by
  unfold duringWait
  cases w.disc with
  | none => exact ⟨[], by simp⟩
  | some d => exact ⟨_, onDisconnect_trace c bos d.dt d.peer d.err⟩

theorem listenForClose_trace (c : Consts) (bos : BleOicSesn) (timeout : Int)
    (w : WaitOutcome) :
    (listenForClose c bos timeout w).1.trace = (duringWait c bos w).trace := by
  unfold listenForClose
  generalize duringWait c bos w = s1
  dsimp only
  split
  · split
    · split <;> rfl
    · rfl
  · rfl

/-- A `Close` that registers calls `Stop` as its first action. -/
theorem Close_trace_of_none (c : Consts) (bos : BleOicSesn) (stop : StopResult)
    (w : WaitOutcome) (h : bos.closeChan = none) :
    ∃ rest, (Close c bos stop w).1.trace = bos.trace ++ Event.Stop :: rest := by
  simp only [Close, setCloseChan_of_none bos h]
  cases stop.err with
  | some e => exact ⟨[], by simp [clearCloseChan, BleOicSesn.emit]⟩
  | none =>
    cases stop.done with
    | true => exact ⟨[], by simp [clearCloseChan, BleOicSesn.emit]⟩
    | false =>
      obtain ⟨rest, hrest⟩ := duringWait_trace c
        ({ bos with closeChan := some { id := bos.nextChan, buf := [] }
                    nextChan := bos.nextChan + 1 }.emit Event.Stop) w
      refine ⟨rest, ?_⟩
      simp only [BleOicSesn.emit] at hrest
      simp [clearCloseChan, listenForClose_trace, hrest, BleOicSesn.emit]

/-- C3 (as stated, refuted): registration succeeds, `Stop` reports that teardown is
not complete, the disconnect callback delivers the error `other 7` before the
timer fires, and `Close` returns nil, not that error. -/
theorem C3_close_drops_disconnect_error :
    (setCloseChan sampleSesn).2 = none
    ∧ Event.closeChanSend 0 (some (Err.other 7)) ∈
        (Close sampleConsts sampleSesn ⟨false, none⟩
          (WaitOutcome.disconnect 3 samplePeer (some (Err.other 7)))).1.trace
    ∧ (Close sampleConsts sampleSesn ⟨false, none⟩
        (WaitOutcome.disconnect 3 samplePeer (some (Err.other 7)))).2 = none
    ∧ (Close sampleConsts sampleSesn ⟨false, none⟩
        (WaitOutcome.disconnect 3 samplePeer (some (Err.other 7)))).2
          ≠ some (Err.other 7) := by
  decide

/-- A `Close` that registers and is told by `Stop` to wait returns what
`listenForClose` returns on the freshly registered slot. -/
theorem Close_of_wait (c : Consts) (bos : BleOicSesn) (stop : StopResult) (w : WaitOutcome)
    (hreg : bos.closeChan = none) (herr : stop.err = none) (hdone : stop.done = false) :
    Close c bos stop w =
      (clearCloseChan (listenForClose c (registeredSesn bos) bos.closeTimeout w).1,
       (listenForClose c (registeredSesn bos) bos.closeTimeout w).2) := by
  simp [Close, setCloseChan, hreg, herr, hdone, registeredSesn, BleOicSesn.emit]

/-- The `select` on a slot that was empty when the disconnect callback ran. -/
theorem listenForClose_of_disconnect (c : Consts) (bos : BleOicSesn) (timeout : Int)
    (w : WaitOutcome) (d : Disconnect) (i : Nat)
    (hs : bos.closeChan = some { id := i, buf := [] }) (hw : w.disc = some d) :
    (listenForClose c bos timeout w).2 =
      (if (timerReady timeout w && w.pickTimer) = true then some Err.closeTimeout
       else none) := by
  have hcc := onDisconnect_closeChan c bos d.dt d.peer d.err
  rw [hs] at hcc
  simp only [Chan.capacity, List.length_nil, Nat.lt_one_iff, if_true, List.nil_append] at hcc
  unfold listenForClose duringWait
  simp only [hw, hcc]
  split <;> rfl

/-- The `select` with no disconnect reported and nothing buffered. -/
theorem listenForClose_of_no_disconnect (c : Consts) (bos : BleOicSesn) (timeout : Int)
    (w : WaitOutcome) (i : Nat)
    (hs : bos.closeChan = some { id := i, buf := [] }) (hw : w.disc = none) :
    (listenForClose c bos timeout w).2 = some Err.closeTimeout := by
  unfold listenForClose duringWait
  simp only [hw, hs]

/-- C3 (amended): when registration succeeds and `Stop` reports, without error,
that teardown is not complete: a disconnect result delivered to the slot while
the timer of a positive close-timeout has not fired makes `Close` return nil
whatever the result is; with no disconnect reported `Close` returns the
close-timeout error; with a result delivered and the timer fired as well (as it
is at once for a close-timeout that is zero or negative) the `select` may take
either case and `Close` returns the close-timeout error or nil accordingly.  In
every case `Close` returns nil or the close-timeout error, never the delivered
result. -/
theorem C3_close_wait_result (c : Consts) (bos : BleOicSesn) (stop : StopResult)
    (hreg : bos.closeChan = none) (herr : stop.err = none) (hdone : stop.done = false) :
    (∀ (w : WaitOutcome) (d : Disconnect), w.disc = some d → w.timerFired = false →
        0 < bos.closeTimeout →
        (Close c bos stop w).2 = none
        ∧ Event.closeChanSend bos.nextChan d.err ∈ newEvents bos (Close c bos stop w).1)
    ∧ (∀ w : WaitOutcome, w.disc = none →
        (Close c bos stop w).2 = some Err.closeTimeout)
    ∧ (∀ (w : WaitOutcome) (d : Disconnect), w.disc = some d →
        (w.timerFired = true ∨ bos.closeTimeout ≤ 0) →
        (Close c bos stop w).2 =
          (if w.pickTimer = true then some Err.closeTimeout else none))
    ∧ (∀ w : WaitOutcome,
        (Close c bos stop w).2 = none ∨ (Close c bos stop w).2 = some Err.closeTimeout) := by
  have hclose := fun w => Close_of_wait c bos stop w hreg herr hdone
  have hs : (registeredSesn bos).closeChan = some { id := bos.nextChan, buf := [] } := by
    simp [registeredSesn, BleOicSesn.emit]
  refine ⟨?_, ?_, ?_, ?_⟩
  · intro w d hw hfired hpos
    have hnot : ¬ bos.closeTimeout ≤ 0 := by omega
    constructor
    · rw [hclose w]
      simp [listenForClose_of_disconnect c _ _ w d _ hs hw, timerReady, hfired, hnot]
    · rw [hclose w]
      have htr : (listenForClose c (registeredSesn bos) bos.closeTimeout w).1.trace =
          (onDisconnect c (registeredSesn bos) d.dt d.peer d.err).1.trace := by
        rw [listenForClose_trace]
        simp [duringWait, hw]
      simp only [newEvents, clearCloseChan]
      rw [htr, onDisconnect_trace, hs]
      simp [Chan.capacity, registeredSesn, BleOicSesn.emit]
  · intro w hw
    rw [hclose w]
    exact listenForClose_of_no_disconnect c _ _ w _ hs hw
  · intro w d hw hready
    rw [hclose w]
    have hr : timerReady bos.closeTimeout w = true := by
      rcases hready with h | h <;> simp [timerReady, h]
    simp [listenForClose_of_disconnect c _ _ w d _ hs hw, hr]
  · intro w
    rw [hclose w]
    cases hw : w.disc with
    | none => exact Or.inr (listenForClose_of_no_disconnect c _ _ w _ hs hw)
    | some d =>
      simp only [listenForClose_of_disconnect c _ _ w d _ hs hw]
      split
      · exact Or.inr rfl
      · exact Or.inl rfl

/-- Witness for C3 (amended): a disconnect carrying an error with the timer of a
five-second close-timeout not fired, a timeout with no disconnect, and the same
disconnect with the timer fired and picked. -/
theorem C3_close_wait_result_witness :
    sampleSesn.closeChan = none
    ∧ (Close sampleConsts sampleSesn ⟨false, none⟩
        (WaitOutcome.disconnect 3 samplePeer (some (Err.other 7)))).2 = none
    ∧ (Close sampleConsts sampleSesn ⟨false, none⟩ WaitOutcome.timeout).2
        = some Err.closeTimeout
    ∧ (Close sampleConsts sampleSesn ⟨false, none⟩
        ⟨some ⟨3, samplePeer, some (Err.other 7)⟩, true, true⟩).2
          = (if true = true then some Err.closeTimeout else none) :=
  ⟨by decide,
   ((C3_close_wait_result sampleConsts sampleSesn ⟨false, none⟩ (by decide) (by decide)
      (by decide)).1 (WaitOutcome.disconnect 3 samplePeer (some (Err.other 7)))
      ⟨3, samplePeer, some (Err.other 7)⟩ rfl rfl (by decide)).1,
   (C3_close_wait_result sampleConsts sampleSesn ⟨false, none⟩ (by decide) (by decide)
      (by decide)).2.1 WaitOutcome.timeout rfl,
   (C3_close_wait_result sampleConsts sampleSesn ⟨false, none⟩ (by decide) (by decide)
      (by decide)).2.2.1 ⟨some ⟨3, samplePeer, some (Err.other 7)⟩, true, true⟩
      ⟨3, samplePeer, some (Err.other 7)⟩ rfl (Or.inl rfl)⟩

/-- C4: when registration succeeds, `closeChan` is nil once `Close` has returned,
whichever way it returns (error from `Stop`, teardown already complete,
disconnect result received, timer fired); a following registration succeeds and
a following `Close` reaches `Stop`.  The same holds for `blockUntilClosed`. -/
theorem C4_slot_cleared_on_return (c : Consts) (bos : BleOicSesn) (stop : StopResult)
    (w : WaitOutcome) (timeout : Int) (isClosed : Bool) (hreg : bos.closeChan = none) :
    (Close c bos stop w).1.closeChan = none
    ∧ (setCloseChan (Close c bos stop w).1).2 = none
    ∧ (∀ stop2 w2, Event.Stop ∈
        newEvents (Close c bos stop w).1 (Close c (Close c bos stop w).1 stop2 w2).1)
    ∧ (blockUntilClosed c bos timeout isClosed w).1.closeChan = none
    ∧ (setCloseChan (blockUntilClosed c bos timeout isClosed w).1).2 = none
    ∧ (∀ stop2 w2, Event.Stop ∈
        newEvents (blockUntilClosed c bos timeout isClosed w).1
          (Close c (blockUntilClosed c bos timeout isClosed w).1 stop2 w2).1) := by
  have hC : (Close c bos stop w).1.closeChan = none := by
    simp only [Close, setCloseChan_of_none bos hreg]
    split
    · rfl
    · split <;> rfl
  have hB : (blockUntilClosed c bos timeout isClosed w).1.closeChan = none := by
    simp only [blockUntilClosed, setCloseChan_of_none bos hreg]
    split <;> rfl
  have hstop : ∀ (s : BleOicSesn), s.closeChan = none →
      ∀ stop2 w2, Event.Stop ∈ newEvents s (Close c s stop2 w2).1 := by
    intro s hs stop2 w2
    obtain ⟨rest, hrest⟩ := Close_trace_of_none c s stop2 w2 hs
    rw [newEvents_append s _ _ hrest]
    simp
  refine ⟨hC, by simp [setCloseChan, hC], hstop _ hC, hB, by simp [setCloseChan, hB],
    hstop _ hB⟩

/-- Witness for C4: a `Close` that returns early because `Stop` reports teardown
complete, from a session with no slot registered. -/
theorem C4_slot_cleared_on_return_witness :
    sampleSesn.closeChan = none
    ∧ (Close sampleConsts sampleSesn ⟨true, none⟩ WaitOutcome.timeout).1.closeChan = none
    ∧ (blockUntilClosed sampleConsts sampleSesn 5 false
        (WaitOutcome.disconnect 3 samplePeer none)).1.closeChan = none :=
  ⟨by decide,
   (C4_slot_cleared_on_return sampleConsts sampleSesn ⟨true, none⟩ WaitOutcome.timeout 5 false
      (by decide)).1,
   (C4_slot_cleared_on_return sampleConsts sampleSesn ⟨true, none⟩
      (WaitOutcome.disconnect 3 samplePeer none) 5 false (by decide)).2.2.2.1⟩

/-! ## Transmit -/

/-- The shape of `TxNmpOnce` on an open session with the key free. -/
theorem TxNmpOnce_of_open_free (c : Consts) (bos : BleOicSesn) (m : NmpMsg) (opt : TxOptions)
    (env : TxEnv) (hopen : env.isOpen = true) (hfree : m.seq ∉ bos.rxer.nmpKeys) :
    m.seq ∉ (TxNmpOnce c bos m opt env).1.rxer.nmpKeys
    ∧ (TxNmpOnce c bos m opt env).2 =
        (match env.encode with
         | Except.error err => (none, some err)
         | Except.ok _ => env.tx) := by
  simp only [TxNmpOnce, hopen, AddNmpListener_of_not_mem bos.rxer m.seq hfree]
  cases env.encode with
  | error e => exact ⟨mem_RemoveNmpListener _ _, rfl⟩
  | ok b => exact ⟨mem_RemoveNmpListener _ _, rfl⟩

/-- C5: on an open session, when the request's sequence number is free,
`TxNmpOnce` returns with that sequence number unregistered, whether encoding
failed or the send returned (with a response, a transport error or a timeout,
and whatever disconnects were reported meanwhile); registering it again
succeeds, and a second `TxNmpOnce` with the same sequence number does not stop
at registration: its result is the one its own encode and send produce.  When
the sequence number is already registered, the call returns the registry's
duplicate-key error and leaves the session, hence the existing registration,
untouched. -/
theorem C5_listener_removed_on_return (c : Consts) (bos : BleOicSesn) (m : NmpMsg)
    (opt : TxOptions) (env : TxEnv) (hopen : env.isOpen = true) :
    (m.seq ∉ bos.rxer.nmpKeys →
        m.seq ∉ (TxNmpOnce c bos m opt env).1.rxer.nmpKeys
        ∧ (∃ r, (TxNmpOnce c bos m opt env).1.rxer.AddNmpListener m.seq = Except.ok r)
        ∧ (∀ (opt2 : TxOptions) (env2 : TxEnv), env2.isOpen = true →
            (TxNmpOnce c (TxNmpOnce c bos m opt env).1 m opt2 env2).2 =
              (match env2.encode with
               | Except.error err => (none, some err)
               | Except.ok _ => env2.tx)
            ∧ m.seq ∉ (TxNmpOnce c (TxNmpOnce c bos m opt env).1 m opt2 env2).1.rxer.nmpKeys))
    ∧ (m.seq ∈ bos.rxer.nmpKeys →
        TxNmpOnce c bos m opt env = (bos, (none, some Err.duplicateKey))
        ∧ m.seq ∈ (TxNmpOnce c bos m opt env).1.rxer.nmpKeys) := by
  refine ⟨?_, ?_⟩
  · intro hfree
    have h1 := (TxNmpOnce_of_open_free c bos m opt env hopen hfree).1
    refine ⟨h1, ⟨_, AddNmpListener_of_not_mem _ _ h1⟩, ?_⟩
    intro opt2 env2 hopen2
    have h2 := TxNmpOnce_of_open_free c _ m opt2 env2 hopen2 h1
    exact ⟨h2.2, h2.1⟩
  · intro hmem
    have h : TxNmpOnce c bos m opt env = (bos, (none, some Err.duplicateKey)) := by
      simp [TxNmpOnce, hopen, AddNmpListener_of_mem bos.rxer m.seq hmem]
    exact ⟨h, by rw [h]; exact hmem⟩

/-- Witness for C5: a send that ends in a transport error with key 7 free, and a
call with key 7 already registered. -/
theorem C5_listener_removed_on_return_witness :
    (7 : Nat) ∉ sampleSesn.rxer.nmpKeys
    ∧ (7 : Nat) ∉ (TxNmpOnce sampleConsts sampleSesn ⟨7, []⟩ ⟨10, 1⟩
        ⟨true, Except.ok [1], [], (none, some (Err.other 9))⟩).1.rxer.nmpKeys
    ∧ (7 : Nat) ∈ busySesn.rxer.nmpKeys
    ∧ TxNmpOnce sampleConsts busySesn ⟨7, []⟩ ⟨10, 1⟩
        ⟨true, Except.ok [1], [], (none, some (Err.other 9))⟩
          = (busySesn, (none, some Err.duplicateKey)) :=
  ⟨by decide,
   ((C5_listener_removed_on_return sampleConsts sampleSesn ⟨7, []⟩ ⟨10, 1⟩
      ⟨true, Except.ok [1], [], (none, some (Err.other 9))⟩ rfl).1 (by decide)).1,
   by decide,
   ((C5_listener_removed_on_return sampleConsts busySesn ⟨7, []⟩ ⟨10, 1⟩
      ⟨true, Except.ok [1], [], (none, some (Err.other 9))⟩ rfl).2 (by decide)).1⟩

/-- C6: when the session is not open, `TxNmpOnce` returns a nil response and the
session-closed error and leaves the session as it was: no listener has been
registered, nothing has been encoded and nothing has been handed to `TxNmp`. -/
theorem C6_tx_on_closed_session (c : Consts) (bos : BleOicSesn) (m : NmpMsg)
    (opt : TxOptions) (env : TxEnv) (hclosed : env.isOpen = false) :
    TxNmpOnce c bos m opt env = (bos, (none, some Err.sesnClosed))
    ∧ (TxNmpOnce c bos m opt env).1.rxer = bos.rxer
    ∧ newEvents bos (TxNmpOnce c bos m opt env).1 = [] := by
  have h : TxNmpOnce c bos m opt env = (bos, (none, some Err.sesnClosed)) := by
    simp [TxNmpOnce, hclosed]
  refine ⟨h, by rw [h], ?_⟩
  rw [h]
  simp [newEvents]

/-- Witness for C6: a transmit on a session that is not open. -/
theorem C6_tx_on_closed_session_witness :
    TxNmpOnce sampleConsts sampleSesn ⟨7, []⟩ ⟨10, 1⟩
        ⟨false, Except.ok [1], [], (some ⟨[2]⟩, none)⟩
      = (sampleSesn, (none, some Err.sesnClosed)) :=
  (C6_tx_on_closed_session sampleConsts sampleSesn ⟨7, []⟩ ⟨10, 1⟩
      ⟨false, Except.ok [1], [], (some ⟨[2]⟩, none)⟩ rfl).1

/-- C10: when the token is free, the request encodes and the send returns a
response `rsp`, `GetResourceOnce` returns `rsp`'s payload and no error exactly
when `rsp.Code` is `coap.Content`; for every other code it returns no payload
and the unexpected-status error, which is none of the other errors of the
session. -/
theorem C10_get_resource_checks_code (c : Consts) (bos : BleOicSesn) (uri : List Nat)
    (opt : TxOptions) (env : OicEnv) (req : Bytes) (rsp : CoapMsg)
    (hfree : env.token ∉ bos.rxer.oicKeys) (henc : env.encode = Except.ok req)
    (htx : env.tx = Except.ok rsp) :
    ((GetResourceOnce c bos uri opt env).2 = (some rsp.Payload, none)
        ↔ rsp.Code = c.Content)
    ∧ (rsp.Code ≠ c.Content →
        (GetResourceOnce c bos uri opt env).2
          = (none, some (Err.unexpectedOicAck rsp.Code rsp.Payload)))
    ∧ Err.unexpectedOicAck rsp.Code rsp.Payload ≠ Err.multipleListeners
    ∧ Err.unexpectedOicAck rsp.Code rsp.Payload ≠ Err.closeTimeout
    ∧ Err.unexpectedOicAck rsp.Code rsp.Payload ≠ Err.sesnClosed
    ∧ Err.unexpectedOicAck rsp.Code rsp.Payload ≠ Err.duplicateKey
    ∧ (∀ tag, Err.unexpectedOicAck rsp.Code rsp.Payload ≠ Err.other tag) := by
  have hadd : bos.rxer.AddOicListener env.token
      = Except.ok { bos.rxer with oicKeys := env.token :: bos.rxer.oicKeys } := by
    simp [Receiver.AddOicListener, hfree]
  refine ⟨?_, ?_, by simp, by simp, by simp, by simp, by simp⟩
  · by_cases hcode : rsp.Code = c.Content <;>
      simp [GetResourceOnce, hadd, henc, htx, hcode]
  · intro hcode
    simp [GetResourceOnce, hadd, henc, htx, hcode]

/-- Witness for C10: a response with code 132 (not `Content`, 69 here). -/
theorem C10_get_resource_checks_code_witness :
    (5 : Nat) ∉ sampleSesn.rxer.oicKeys
    ∧ (GetResourceOnce sampleConsts sampleSesn [47] ⟨10, 1⟩
        ⟨5, Except.ok [1], [], Except.ok ⟨132, [9]⟩⟩).2
          = (none, some (Err.unexpectedOicAck 132 [9])) :=
  ⟨by decide,
   (C10_get_resource_checks_code sampleConsts sampleSesn [47] ⟨10, 1⟩
      ⟨5, Except.ok [1], [], Except.ok ⟨132, [9]⟩⟩ [1] ⟨132, [9]⟩ (by decide) rfl rfl).2.1
      (by decide)⟩

/-! ## MTU -/

/-- C9: `MtuOut` never exceeds `BLE_ATT_ATTR_MAX_LEN`, whatever the link MTU; when
the subtractions stay within `int`, `MtuOut` is the smaller of
`attMtu - WRITE_CMD_BASE_SZ - OMP_MSG_OVERHEAD - NMP_HDR_SIZE` and
`BLE_ATT_ATTR_MAX_LEN`, and `MtuIn` is
`attMtu - NOTIFY_CMD_BASE_SZ - OMP_MSG_OVERHEAD - NMP_HDR_SIZE` with no cap, so it
exceeds the ceiling as soon as that difference does. -/
theorem C9_mtu_values (c : Consts) (bos : BleOicSesn) :
    MtuOut c bos ≤ c.BLE_ATT_ATTR_MAX_LEN
    ∧ (noWrap bos.bf.attMtu c.WRITE_CMD_BASE_SZ c.OMP_MSG_OVERHEAD c.NMP_HDR_SIZE →
        MtuOut c bos =
          min (bos.bf.attMtu - c.WRITE_CMD_BASE_SZ - c.OMP_MSG_OVERHEAD - c.NMP_HDR_SIZE)
            c.BLE_ATT_ATTR_MAX_LEN)
    ∧ (noWrap bos.bf.attMtu c.NOTIFY_CMD_BASE_SZ c.OMP_MSG_OVERHEAD c.NMP_HDR_SIZE →
        MtuIn c bos =
          bos.bf.attMtu - c.NOTIFY_CMD_BASE_SZ - c.OMP_MSG_OVERHEAD - c.NMP_HDR_SIZE
        ∧ (c.BLE_ATT_ATTR_MAX_LEN <
              bos.bf.attMtu - c.NOTIFY_CMD_BASE_SZ - c.OMP_MSG_OVERHEAD - c.NMP_HDR_SIZE →
            c.BLE_ATT_ATTR_MAX_LEN < MtuIn c bos)) := by
  refine ⟨IntMin_le_right _ _, ?_, ?_⟩
  · rintro ⟨h1, h2, h3⟩
    simp only [MtuOut, IntMin_eq_min]
    rw [wrapInt_of_fits _ h1, wrapInt_of_fits _ h2, wrapInt_of_fits _ h3]
  · rintro ⟨h1, h2, h3⟩
    have h : MtuIn c bos =
        bos.bf.attMtu - c.NOTIFY_CMD_BASE_SZ - c.OMP_MSG_OVERHEAD - c.NMP_HDR_SIZE := by
      simp only [MtuIn]
      rw [wrapInt_of_fits _ h1, wrapInt_of_fits _ h2, wrapInt_of_fits _ h3]
    exact ⟨h, fun hlt => by rw [h]; exact hlt⟩

/-- Witness for C9: link MTU 240 with the sample constants. -/
theorem C9_mtu_values_witness :
    noWrap sampleSesn.bf.attMtu sampleConsts.WRITE_CMD_BASE_SZ sampleConsts.OMP_MSG_OVERHEAD
        sampleConsts.NMP_HDR_SIZE
    ∧ MtuOut sampleConsts sampleSesn = min (240 - 3 - 13 - 8) 512
    ∧ noWrap sampleSesn.bf.attMtu sampleConsts.NOTIFY_CMD_BASE_SZ
        sampleConsts.OMP_MSG_OVERHEAD sampleConsts.NMP_HDR_SIZE
    ∧ MtuIn sampleConsts sampleSesn = 240 - 3 - 13 - 8 :=
  ⟨by simp [noWrap, fitsInt, sampleSesn, sampleConsts],
   (C9_mtu_values sampleConsts sampleSesn).2.1
     (by simp [noWrap, fitsInt, sampleSesn, sampleConsts]),
   by simp [noWrap, fitsInt, sampleSesn, sampleConsts],
   ((C9_mtu_values sampleConsts sampleSesn).2.2
     (by simp [noWrap, fitsInt, sampleSesn, sampleConsts])).1⟩

end Nmble
